import Mathlib

/-!
Verification of the ExamApp mobile exam client, centred on the proctoring
snapshot scheduler (`useProctoring` hook), the violation modal, and the
exam session's answer-persistence and timing logic (`ExamScreen`).

The TypeScript source is shallowly embedded: React state is passed
explicitly as records, async suspension points (camera capture, network
upload, timers) become explicit parameters describing the environment's
outcome, thrown JavaScript exceptions become `Except`, and observable
side effects (camera capture calls, network calls, modal state writes)
are recorded in an event trace returned alongside the new state.
-/

namespace ExamApp

/-! ## Data model: server snapshot verdict (examApi.ts `SnapshotResponse`) -/

/-- One entry of `analysis.violations` in the server response; the client
only reads its `type` field. -/
structure Violation where
  type : String
deriving Repr, DecidableEq

/-- The analysis object inside the snapshot response. -/
structure Analysis where
  success : Bool
  violations : List Violation
  faces_detected : Nat
deriving Repr, DecidableEq

/-- The server response to `POST .../proctoring/snapshot/`
(`SnapshotResponse` in examApi.ts): per-cycle analysis, the cumulative
violation count for the attempt, and the auto-disqualification flag. -/
structure SnapshotResponse where
  snapshot_uploaded : Bool
  analysis : Analysis
  violation_count : Nat
  auto_disqualified : Bool
  storage_type : String
deriving Repr, DecidableEq

/-! ## Violation modal (useProctoring.ts lines 11-18, 150-206) -/

/-- `ViolationModalState` from useProctoring.ts. -/
structure ViolationModalState where
  visible : Bool
  violationType : String
  violationTitle : String
  violationMessage : String
  totalViolations : Nat
  isDisqualified : Bool
deriving Repr, DecidableEq

/-- Result of `getViolationDetails`:  a title/message pair. -/
structure ViolationDetails where
  title : String
  message : String
deriving Repr, DecidableEq

/-- `getViolationDetails` (useProctoring.ts lines 150-183).  The switch
covers exactly five violation types; its `default` case is commented out
in the source, so any other argument falls through and the function
returns JavaScript `undefined`, modelled as `none`. -/
def getViolationDetails (violationType : String) : Option ViolationDetails :=
  if violationType = "no_face" then
    some { title := "Face Not Detected",
           message := "Your face is not visible in the camera.\n\n📌 Action Required:\n• Position yourself so your face is clearly visible\n• Ensure proper lighting\n• Look at the screen" }
  else if violationType = "multiple_faces" then
    some { title := "Multiple Faces Detected",
           message := "More than one person detected in the frame.\n\n📌 Action Required:\n• Ensure you are alone during the exam\n• Remove others from camera view\n• Maintain exam integrity" }
  else if violationType = "looking_away" then
    some { title := "Looking Away Detected",
           message := "You appear to be looking away from the screen.\n\n📌 Action Required:\n• Keep your eyes on the exam\n• Focus on the questions\n• Avoid looking at other materials" }
  else if violationType = "suspicious_gaze" then
    some { title := "Suspicious Eye Movement",
           message := "Unusual eye movement pattern detected.\n\n📌 Action Required:\n• Focus on the exam screen\n• Avoid looking around\n• Keep your gaze steady" }
  else if violationType = "head_pose_violation" then
    some { title := "Unusual Head Position",
           message := "Your head position seems unusual.\n\n📌 Action Required:\n• Face the screen directly\n• Sit upright\n• Maintain proper posture" }
  else
    none

/-- The five violation types the modal path handles. -/
def handledViolationTypes : List String :=
  ["no_face", "multiple_faces", "looking_away", "suspicious_gaze", "head_pose_violation"]

/-- `showViolationModal` (useProctoring.ts lines 186-201).  It reads
`details.title` and `details.message` without checking for `undefined`;
when `getViolationDetails` has no case for the type, that property access
raises a `TypeError` at runtime, modelled as `Except.error ()`.  On
success it returns the modal state passed to `setViolationModal`. -/
def showViolationModal (violationType : String) (totalViolations : Nat)
    (isDisqualified : Bool) : Except Unit ViolationModalState :=
  match getViolationDetails violationType with
  | none => Except.error ()
  | some details =>
      Except.ok { visible := true
                  violationType := violationType
                  violationTitle := details.title
                  violationMessage := details.message
                  totalViolations := totalViolations
                  isDisqualified := isDisqualified }

/-- `closeViolationModal` (useProctoring.ts lines 204-206):
`setViolationModal(prev => (\x7b ...prev, visible: false \x7d))`. -/
def closeViolationModal (prev : ViolationModalState) : ViolationModalState :=
  { prev with visible := false }

/-- The `onRequestClose` prop of the `Modal` in ViolationModal.tsx line
108: `isDisqualified ? undefined : onClose` — the hardware back handler
is absent exactly when the notice is a disqualification.  The on-screen
action button (lines 208-216) passes `onClose` unconditionally. -/
def modalOnRequestClose (isDisqualified : Bool) :
    Option (ViolationModalState → ViolationModalState) :=
  if isDisqualified then none else some closeViolationModal

/-! ## Proctoring scheduler state and events (useProctoring.ts) -/

/-- The `useProctoring` hook state relevant to the snapshot cycle.
Timestamps are abstracted to `Nat`; `intervalActive` stands for
`snapshotIntervalRef.current !== null`. -/
structure ProctoringState where
  snapshotCount : Nat
  lastSnapshotTime : Option Nat
  isTakingSnapshot : Bool
  violationCount : Nat
  violationModal : ViolationModalState
  cameraReady : Bool
  hasPermission : Bool
  intervalActive : Bool
deriving Repr, DecidableEq

/-- Observable effects of the proctoring path: a camera capture call, a
network upload call, and a write of the violation modal state. -/
inductive PEvent where
  | captureCall : PEvent
  | uploadCall : PEvent
  | modalSet : ViolationModalState → PEvent
deriving Repr, DecidableEq

/-- The modal states written during a trace. -/
def modalSets : List PEvent → List ViolationModalState
  | [] => []
  | PEvent.modalSet m :: rest => m :: modalSets rest
  | _ :: rest => modalSets rest

/-- Auto-disqualification check (useProctoring.ts lines 281-293): when
`response.auto_disqualified` holds, the code calls
`showViolationModal('disqualified', response.violation_count, true)`;
a thrown `TypeError` there is caught by the surrounding `catch`. -/
def disqualifiedCheck (s : ProctoringState) (r : SnapshotResponse) :
    ProctoringState × List PEvent :=
  if r.auto_disqualified then
    match showViolationModal "disqualified" r.violation_count true with
    | Except.error _ => (s, [])
    | Except.ok m => ({ s with violationModal := m }, [PEvent.modalSet m])
  else
    (s, [])

/-- Continuation of `takeAndUploadSnapshot` after the awaited upload
(useProctoring.ts lines 237-307).  `up` is the outcome of
`takeProctoringSnapshot`; an `Except.error` models the promise
rejecting.  On success the code increments `snapshotCount`, records
`lastSnapshotTime`, overwrites `violationCount` from the server, shows
the violation modal when the current cycle's list is non-empty, then
runs the auto-disqualification check.  Any exception is swallowed by the
`catch`, and the `finally` always clears `isTakingSnapshot`. -/
def cycleComplete (s : ProctoringState) (now : Nat)
    (up : Except Unit SnapshotResponse) : ProctoringState × List PEvent :=
  match up with
  | Except.error _ => ({ s with isTakingSnapshot := false }, [PEvent.uploadCall])
  | Except.ok r =>
      let s1 : ProctoringState :=
        { s with snapshotCount := s.snapshotCount + 1
                 lastSnapshotTime := some now
                 violationCount := r.violation_count }
      match r.analysis.violations with
      | [] =>
          let (s2, ev) := disqualifiedCheck s1 r
          ({ s2 with isTakingSnapshot := false }, PEvent.uploadCall :: ev)
      | v :: _ =>
          match showViolationModal v.type r.violation_count false with
          | Except.error _ =>
              ({ s1 with isTakingSnapshot := false }, [PEvent.uploadCall])
          | Except.ok m =>
              let (s2, ev) := disqualifiedCheck { s1 with violationModal := m } r
              ({ s2 with isTakingSnapshot := false },
               PEvent.uploadCall :: PEvent.modalSet m :: ev)

/-- `takeAndUploadSnapshot` (useProctoring.ts lines 209-308) as one
atomic cycle.  `cap` is the outcome of `captureImageSilently` (`none`
models its null returns — backgrounded app, camera not ready, capture
error); `up` is the outcome of the upload.  The busy guard at lines
210-213 returns before any capture or upload; the readiness guard at
lines 215-218 likewise.  A null capture returns early (lines 227-230)
with the `finally` clearing the busy flag. -/
def takeAndUploadSnapshot (s : ProctoringState) (now : Nat)
    (cap : Option String) (up : Except Unit SnapshotResponse) :
    ProctoringState × List PEvent :=
  if s.isTakingSnapshot then (s, [])
  else if !(s.cameraReady && s.hasPermission) then (s, [])
  else
    let busy : ProctoringState := { s with isTakingSnapshot := true }
    match cap with
    | none => ({ busy with isTakingSnapshot := false }, [PEvent.captureCall])
    | some _ =>
        let (s2, ev) := cycleComplete busy now up
        (s2, PEvent.captureCall :: ev)

/-! ## Interleaved scheduler: a tick may fire while an upload is in flight.

`takeAndUploadSnapshot` suspends at the upload `await`; to state the
one-in-flight invariant we split the cycle at that point.  A firing of
the 5-second interval runs the guards and the capture; if an image was
produced the cycle parks as `pendingUpload` with `isTakingSnapshot`
already set.  The upload resolving runs the rest of the cycle. -/

/-- Scheduler state: hook state plus the parked in-flight upload. -/
structure SchedState where
  ps : ProctoringState
  pendingUpload : Option String
deriving Repr, DecidableEq

/-- One firing of the snapshot interval, up to the upload suspension
point (useProctoring.ts lines 209-236). -/
def intervalFire (s : SchedState) (cap : Option String) :
    SchedState × List PEvent :=
  if s.ps.isTakingSnapshot then (s, [])
  else if !(s.ps.cameraReady && s.ps.hasPermission) then (s, [])
  else
    let busy : ProctoringState := { s.ps with isTakingSnapshot := true }
    match cap with
    | none => ({ s with ps := { busy with isTakingSnapshot := false } },
               [PEvent.captureCall])
    | some img => ({ ps := busy, pendingUpload := some img },
                   [PEvent.captureCall])

/-- The in-flight upload resolving: the remainder of the cycle runs
(useProctoring.ts lines 237-307) and the slot empties.  With no upload
in flight this event cannot occur and is a no-op. -/
def uploadResolve (s : SchedState) (now : Nat)
    (up : Except Unit SnapshotResponse) : SchedState × List PEvent :=
  match s.pendingUpload with
  | none => (s, [])
  | some _ =>
      let (ps2, ev) := cycleComplete s.ps now up
      ({ ps := ps2, pendingUpload := none }, ev)

/-- External events driving the scheduler. -/
inductive SchedEvent where
  | fire : Option String → SchedEvent
  | resolve : Nat → Except Unit SnapshotResponse → SchedEvent

/-- One scheduler step. -/
def schedStep (s : SchedState) : SchedEvent → SchedState × List PEvent
  | SchedEvent.fire cap => intervalFire s cap
  | SchedEvent.resolve now up => uploadResolve s now up

/-- A run of the scheduler, accumulating the event trace. -/
def schedRun (s : SchedState) : List SchedEvent → SchedState × List PEvent
  | [] => (s, [])
  | e :: rest =>
      let (s1, ev1) := schedStep s e
      let (s2, ev2) := schedRun s1 rest
      (s2, ev1 ++ ev2)

/-- The busy flag covers every in-flight upload: whenever a cycle is
parked at the upload suspension point, `isTakingSnapshot` is set. -/
def schedInv (s : SchedState) : Prop :=
  s.pendingUpload.isSome → s.ps.isTakingSnapshot = true

instance (s : SchedState) : Decidable (schedInv s) := by
  unfold schedInv; infer_instance

/-! ## Exam session (ExamScreen.tsx): answers, debounce, timing, submit -/

/-- `UserAnswer` (ExamScreen.tsx lines 63-69).  Times are in seconds for
`timeSpent` and in milliseconds for `startTime`, as in the source. -/
structure UserAnswer where
  questionId : Nat
  answer : String
  isFlagged : Bool
  timeSpent : Nat
  startTime : Nat
deriving Repr, DecidableEq

/-- A question as far as the session logic reads it: its id and subject
(`navigateToQuestion` consults `subject`). -/
structure Question where
  id : Nat
  subject : String
deriving Repr, DecidableEq

/-- The `userAnswers` record (a JavaScript object keyed by question id),
modelled as an association list with at most one entry per id. -/
def lookupAnswer (ua : List UserAnswer) (questionId : Nat) : Option UserAnswer :=
  ua.find? (fun a => a.questionId = questionId)

/-- The `timeSpent` the UI reads for a question: the entry's accumulator
when one exists, and nothing recorded (zero) otherwise. -/
def recordedTimeSpent (ua : List UserAnswer) (questionId : Nat) : Nat :=
  match lookupAnswer ua questionId with
  | some a => a.timeSpent
  | none => 0

/-- `updateQuestionTime` (ExamScreen.tsx lines 180-194): when an entry
for `questionId` exists its `timeSpent` grows by `additionalTime`;
when none exists the updater returns `prev` unchanged, so the time is
not recorded anywhere. -/
def updateQuestionTime (ua : List UserAnswer) (questionId : Nat)
    (additionalTime : Nat) : List UserAnswer :=
  ua.map (fun a =>
    if a.questionId = questionId then
      { a with timeSpent := a.timeSpent + additionalTime }
    else a)

/-- The `setUserAnswers` updater inside `autoSaveAnswer` (ExamScreen.tsx
lines 293-305): upsert of the edited answer, accumulating `timeSpent`
and keeping the original `startTime` when an entry exists. -/
def upsertAnswer (ua : List UserAnswer) (questionId : Nat) (answer : String)
    (isFlagged : Bool) (timeSpent : Nat) (questionStartTime : Nat) :
    List UserAnswer :=
  match lookupAnswer ua questionId with
  | some _ =>
      ua.map (fun a =>
        if a.questionId = questionId then
          { questionId := questionId, answer := answer, isFlagged := isFlagged
            timeSpent := a.timeSpent + timeSpent, startTime := a.startTime }
        else a)
  | none =>
      ua ++ [{ questionId := questionId, answer := answer
               isFlagged := isFlagged, timeSpent := timeSpent
               startTime := questionStartTime }]

/-- The payload entry type `AnswerWithTime` (examApi.ts). -/
structure AnswerWithTime where
  question_id : Nat
  answer : String
  is_flagged : Bool
  time_spent : Nat
deriving Repr, DecidableEq

/-- The `answersForSubmit` record built in `submitExam` (ExamScreen.tsx
lines 343-352): every in-memory `UserAnswer`, keyed by its question id. -/
def answersForSubmit (ua : List UserAnswer) : List (Nat × AnswerWithTime) :=
  ua.map (fun a =>
    (a.questionId,
     { question_id := a.questionId, answer := a.answer
       is_flagged := a.isFlagged, time_spent := a.timeSpent }))

/-- The full submit payload (`SubmitExamPayload`). -/
structure SubmitExamPayload where
  attempt_id : Nat
  answers : List (Nat × AnswerWithTime)
deriving Repr, DecidableEq

/-- Network calls made by the exam session. -/
inductive NetCall where
  | autosave : Nat → Nat → String → Bool → NetCall
  | submit : SubmitExamPayload → NetCall
deriving Repr, DecidableEq

/-- The submit calls occurring in a trace. -/
def submitCalls : List NetCall → List SubmitExamPayload
  | [] => []
  | NetCall.submit p :: rest => p :: submitCalls rest
  | _ :: rest => submitCalls rest

/-- The autosave calls occurring in a trace. -/
def autosaveCalls : List NetCall → List NetCall
  | [] => []
  | NetCall.autosave a q ans f :: rest =>
      NetCall.autosave a q ans f :: autosaveCalls rest
  | _ :: rest => autosaveCalls rest

/-- `ExamScreen` state relevant to answer persistence and timing.
`pendingAutoSave` is `autoSaveTimeoutRef.current` together with the
arguments the scheduled callback closed over; `timerActive` is the
countdown interval not yet cleared. -/
structure ExamState where
  attemptId : Nat
  questions : List Question
  currentQuestionIndex : Nat
  userAnswers : List UserAnswer
  questionStartTime : Nat
  pendingAutoSave : Option (Nat × String × Bool)
  autoSaving : Bool
  selectedSubject : Option String
  timeRemaining : Nat
  timerActive : Bool
  submitting : Bool
  showSubmitModal : Bool
deriving Repr, DecidableEq

/-- `autoSaveAnswer` (ExamScreen.tsx lines 287-331), up to the timer
firing: compute the dwell `Math.floor((now - questionStartTime)/1000)`,
upsert the answer, reset `questionStartTime`, cancel any pending
debounce timer (`clearTimeout`) and schedule a new one closing over this
call's arguments.  No network call happens here. -/
def autoSaveAnswer (s : ExamState) (now : Nat) (questionId : Nat)
    (answer : String) (isFlagged : Bool) : ExamState :=
  let timeSpent := (now - s.questionStartTime) / 1000
  { s with autoSaving := true
           userAnswers := upsertAnswer s.userAnswers questionId answer
             isFlagged timeSpent s.questionStartTime
           questionStartTime := now
           pendingAutoSave := some (questionId, answer, isFlagged) }

/-- The debounce timer firing (the `setTimeout` callback at ExamScreen.tsx
lines 313-325): one `submitAnswer` network call with the arguments the
latest edit closed over.  With no pending timer nothing fires. -/
def autoSaveFire (s : ExamState) : ExamState × List NetCall :=
  match s.pendingAutoSave with
  | none => (s, [])
  | some (questionId, answer, isFlagged) =>
      ({ s with pendingAutoSave := none, autoSaving := false },
       [NetCall.autosave s.attemptId questionId answer isFlagged])

/-- The close-out step shared by `navigateToQuestion` and `submitExam`
(ExamScreen.tsx lines 380-384 and 337-341): when a current question
exists, add `Math.floor((now - questionStartTime) / 1000)` to its
`timeSpent` via `updateQuestionTime`. -/
def closeOutCurrent (s : ExamState) (now : Nat) : List UserAnswer :=
  match s.questions.get? s.currentQuestionIndex with
  | some currentQuestion =>
      updateQuestionTime s.userAnswers currentQuestion.id
        ((now - s.questionStartTime) / 1000)
  | none => s.userAnswers

/-- `navigateToQuestion` (ExamScreen.tsx lines 379-394): close out the
dwell on the question being left via `updateQuestionTime`, switch the
selected subject when the target differs, then move the index and reset
`questionStartTime`. -/
def navigateToQuestion (s : ExamState) (index : Nat) (now : Nat) : ExamState :=
  let afterClose := closeOutCurrent s now
  let selected :=
    match s.questions.get? index with
    | some targetQuestion =>
        if some targetQuestion.subject ≠ s.selectedSubject then
          some targetQuestion.subject
        else s.selectedSubject
    | none => s.selectedSubject
  { s with userAnswers := afterClose
           selectedSubject := selected
           currentQuestionIndex := index
           questionStartTime := now }

/-- `submitExam` (ExamScreen.tsx lines 333-377).  There is no re-entrancy
guard: the function never consults `submitting` before proceeding.  It
sets `submitting`, closes out the current question's dwell, aggregates
every in-memory answer into the payload, performs the `submit` network
call, and in `finally` clears `submitting` and hides the confirm modal. -/
def submitExam (s : ExamState) (now : Nat) : ExamState × List NetCall :=
  let afterClose := closeOutCurrent s now
  let payload : SubmitExamPayload :=
    { attempt_id := s.attemptId, answers := answersForSubmit afterClose }
  ({ s with userAnswers := afterClose
            submitting := false
            showSubmitModal := false },
   [NetCall.submit payload])

/-- One tick of the countdown interval (ExamScreen.tsx lines 148-165):
`setTimeRemaining(prev => ...)` clears the interval and auto-submits when
the previous value has reached zero, and otherwise decrements.  A tick
of a cleared interval never happens. -/
def countdownTick (s : ExamState) (now : Nat) : ExamState × List NetCall :=
  if !s.timerActive then (s, [])
  else if s.timeRemaining = 0 then
    let (s1, calls) := submitExam { s with timerActive := false } now
    ({ s1 with timeRemaining := 0 }, calls)
  else
    ({ s with timeRemaining := s.timeRemaining - 1 }, [])

/-- A run of countdown ticks at one-second spacing starting at `now`. -/
def countdownRun (s : ExamState) (now : Nat) : Nat → ExamState × List NetCall
  | 0 => (s, [])
  | k + 1 =>
      let (s1, ev1) := countdownTick s now
      let (s2, ev2) := countdownRun s1 (now + 1000) k
      (s2, ev1 ++ ev2)

/-- A burst of answer edits to one question, each arriving before the
pending debounce timer fires: every edit reschedules the timer, so no
network call occurs during the burst.  Each element is
`(now, answer, isFlagged)`. -/
def runEdits (s : ExamState) (questionId : Nat) :
    List (Nat × String × Bool) → ExamState
  | [] => s
  | e :: rest => runEdits (autoSaveAnswer s e.1 questionId e.2.1 e.2.2) questionId rest

/-- A sequence of question navigations; each element is `(index, now)`. -/
def runNavs (s : ExamState) : List (Nat × Nat) → ExamState
  | [] => s
  | nav :: rest => runNavs (navigateToQuestion s nav.1 nav.2) rest

/-! ## Concrete fixtures used by witnesses and counterexamples -/

/-- The initial modal state (useProctoring.ts lines 30-37). -/
def initialModal : ViolationModalState :=
  { visible := false, violationType := "", violationTitle := ""
    violationMessage := "", totalViolations := 0, isDisqualified := false }

/-- A proctoring state that is armed and idle: camera ready, permission
granted, interval running, no cycle in flight. -/
def readyState : ProctoringState :=
  { snapshotCount := 0, lastSnapshotTime := none, isTakingSnapshot := false
    violationCount := 0, violationModal := initialModal
    cameraReady := true, hasPermission := true, intervalActive := true }

/-- The same hook state while a cycle is busy. -/
def busyState : ProctoringState :=
  { readyState with isTakingSnapshot := true }

/-- A scheduler state with an upload in flight. -/
def inflightSched : SchedState :=
  { ps := busyState, pendingUpload := some "img" }

/-- A benign server verdict: nothing detected, two prior violations. -/
def cleanResponse : SnapshotResponse :=
  { snapshot_uploaded := true
    analysis := { success := true, violations := [], faces_detected := 1 }
    violation_count := 2, auto_disqualified := false, storage_type := "s3" }

/-- A verdict whose only violation carries a type outside the handled
five (for example a server-side rule added later). -/
def unhandledResponse : SnapshotResponse :=
  { snapshot_uploaded := true
    analysis := { success := true
                  violations := [{ type := "phone_detected" }]
                  faces_detected := 1 }
    violation_count := 3, auto_disqualified := false, storage_type := "s3" }

/-- A verdict detecting a handled violation in the current cycle. -/
def noFaceResponse : SnapshotResponse :=
  { snapshot_uploaded := true
    analysis := { success := true
                  violations := [{ type := "no_face" }]
                  faces_detected := 0 }
    violation_count := 4, auto_disqualified := false, storage_type := "s3" }

/-- A verdict that auto-disqualifies the attempt with no violation in the
current cycle's list. -/
def disqResponse : SnapshotResponse :=
  { snapshot_uploaded := true
    analysis := { success := true, violations := [], faces_detected := 1 }
    violation_count := 10, auto_disqualified := true, storage_type := "s3" }

/-- A two-question exam session just after load: no answers yet,
countdown at 60 seconds. -/
def examBase : ExamState :=
  { attemptId := 42
    questions := [{ id := 1, subject := "General" }, { id := 2, subject := "General" }]
    currentQuestionIndex := 0, userAnswers := [], questionStartTime := 0
    pendingAutoSave := none, autoSaving := false
    selectedSubject := some "General", timeRemaining := 60
    timerActive := true, submitting := false, showSubmitModal := false }

/-- The same session after one saved answer on question 1. -/
def examWithAnswer : ExamState :=
  { examBase with
      userAnswers := [{ questionId := 1, answer := "A", isFlagged := false
                        timeSpent := 3, startTime := 0 }] }

/-- The session while a submission is already in flight. -/
def submittingState : ExamState :=
  { examWithAnswer with submitting := true, timeRemaining := 0 }

/-- A displayed disqualification notice. -/
def disqModal : ViolationModalState :=
  { visible := true, violationType := "disqualified", violationTitle := ""
    violationMessage := "", totalViolations := 10, isDisqualified := true }

/-! ## Shared lemmas about the proctoring cycle -/

/-- `getViolationDetails` has no case for the `'disqualified'` type the
auto-disqualification branch passes. -/
lemma getViolationDetails_disqualified : getViolationDetails "disqualified" = none := by
  decide

/-- Hence showing the disqualification modal always raises. -/
lemma showViolationModal_disqualified (n : Nat) (b : Bool) :
    showViolationModal "disqualified" n b = Except.error () := by
  unfold showViolationModal
  rw [getViolationDetails_disqualified]

/-- The auto-disqualification check can never update the modal: its
`showViolationModal` call always throws and is swallowed. -/
lemma disqualifiedCheck_eq (s : ProctoringState) (r : SnapshotResponse) :
    disqualifiedCheck s r = (s, []) := by
  unfold disqualifiedCheck
  rw [showViolationModal_disqualified]
  split <;> rfl

/-- Closed form of the post-upload part of a successful cycle. -/
lemma cycleComplete_ok_eq (s : ProctoringState) (now : Nat) (r : SnapshotResponse) :
    cycleComplete s now (Except.ok r) =
      (match r.analysis.violations with
       | [] =>
           ({ s with snapshotCount := s.snapshotCount + 1
                     lastSnapshotTime := some now
                     violationCount := r.violation_count
                     isTakingSnapshot := false }, [PEvent.uploadCall])
       | v :: _ =>
           match showViolationModal v.type r.violation_count false with
           | Except.error _ =>
               ({ s with snapshotCount := s.snapshotCount + 1
                         lastSnapshotTime := some now
                         violationCount := r.violation_count
                         isTakingSnapshot := false }, [PEvent.uploadCall])
           | Except.ok m =>
               ({ s with snapshotCount := s.snapshotCount + 1
                         lastSnapshotTime := some now
                         violationCount := r.violation_count
                         violationModal := m
                         isTakingSnapshot := false },
                [PEvent.uploadCall, PEvent.modalSet m])) := by
  unfold cycleComplete
  cases hv : r.analysis.violations with
  | nil => simp [hv, disqualifiedCheck_eq]
  | cons v rest =>
      cases hm : showViolationModal v.type r.violation_count false with
      | error e => simp [hv, hm, disqualifiedCheck_eq]
      | ok m => simp [hv, hm, disqualifiedCheck_eq]

/-- The busy-flag invariant is preserved by an interval firing. -/
lemma schedInv_intervalFire (s : SchedState) (cap : Option String)
    (h : schedInv s) : schedInv (intervalFire s cap).1 := by
  unfold intervalFire
  by_cases hb : s.ps.isTakingSnapshot
  · simpa [hb] using h
  · by_cases hr : s.ps.cameraReady && s.ps.hasPermission
    · cases cap with
      | none =>
          simp only [hb, hr]
          intro hsome
          exact absurd (h hsome) (by simp [hb])
      | some img => simp [schedInv, hb, hr]
    · simpa [hb, hr] using h

/-- The busy-flag invariant is preserved by the upload resolving. -/
lemma schedInv_uploadResolve (s : SchedState) (now : Nat)
    (up : Except Unit SnapshotResponse) (h : schedInv s) :
    schedInv (uploadResolve s now up).1 := by
  unfold uploadResolve
  cases hp : s.pendingUpload with
  | none => simpa using h
  | some img => simp [schedInv]

/-- The busy-flag invariant is preserved by every scheduler step. -/
lemma schedInv_schedStep (s : SchedState) (e : SchedEvent) (h : schedInv s) :
    schedInv (schedStep s e).1 := by
  cases e with
  | fire cap => exact schedInv_intervalFire s cap h
  | resolve now up => exact schedInv_uploadResolve s now up h

/-- The busy-flag invariant holds along every scheduler run. -/
lemma schedInv_schedRun (evs : List SchedEvent) (s : SchedState)
    (h : schedInv s) : schedInv (schedRun s evs).1 := by
  induction evs generalizing s with
  | nil => simpa using h
  | cons e rest ih =>
      simpa [schedRun] using ih (schedStep s e).1 (schedInv_schedStep s e h)

/-- An interval tick firing against a busy scheduler changes nothing and
emits no capture and no upload. -/
lemma intervalFire_busy (s : SchedState) (cap : Option String)
    (hb : s.ps.isTakingSnapshot = true) : intervalFire s cap = (s, []) := by
  unfold intervalFire
  simp [hb]

/-- With the guards passing and an image captured, `takeAndUploadSnapshot`
is the capture call followed by the post-upload continuation run from
the busy state. -/
lemma takeAndUploadSnapshot_ok_eq (s : ProctoringState) (now : Nat)
    (img : String) (up : Except Unit SnapshotResponse)
    (hb : s.isTakingSnapshot = false) (hc : s.cameraReady = true)
    (hp : s.hasPermission = true) :
    takeAndUploadSnapshot s now (some img) up =
      ((cycleComplete { s with isTakingSnapshot := true } now up).1,
       PEvent.captureCall :: (cycleComplete { s with isTakingSnapshot := true } now up).2) := by
  unfold takeAndUploadSnapshot
  simp [hb, hc, hp]

/-! ## Claims -/

/-- Claim C1: at most one capture+upload cycle is in flight at a time.
Along every scheduler run the busy flag covers each in-flight upload,
and an interval tick firing while the busy flag is set — in particular
while a previous cycle's upload is still pending — leaves the state
unchanged and performs no capture call and no upload call: the tick is
skipped, not queued, so two invocations of `takeAndUploadSnapshot`
never both pass the busy guard. -/
theorem claim1_single_inflight_cycle :
    (∀ s0 : SchedState, ∀ evs : List SchedEvent, schedInv s0 →
       schedInv (schedRun s0 evs).1) ∧
    (∀ s : SchedState, ∀ cap : Option String, s.ps.isTakingSnapshot = true →
       schedStep s (SchedEvent.fire cap) = (s, [])) ∧
    (∀ s : SchedState, ∀ cap : Option String, schedInv s →
       s.pendingUpload.isSome → schedStep s (SchedEvent.fire cap) = (s, [])) := by
  refine ⟨fun s0 evs h => schedInv_schedRun evs s0 h, ?_, ?_⟩
  · intro s cap hb
    exact intervalFire_busy s cap hb
  · intro s cap hinv hsome
    exact intervalFire_busy s cap (hinv hsome)

/-- Witness for C1 at a concrete in-flight scheduler state. -/
theorem claim1_single_inflight_cycle_witness :
    schedInv { ps := readyState, pendingUpload := none } ∧
    schedStep inflightSched (SchedEvent.fire (some "second")) = (inflightSched, []) := by
  refine ⟨by decide, ?_⟩
  exact claim1_single_inflight_cycle.2.2 inflightSched (some "second")
    (by decide) (by decide)

/-- Claim C2: after every completed snapshot cycle the exposed
`violationCount` equals the `violation_count` field of that cycle's
server response; a cycle whose capture or upload fails leaves it
unchanged; and in every case the new value is either the old value or a
server-reported value — it is never computed locally. -/
theorem claim2_violation_count_from_server :
    (∀ s : ProctoringState, ∀ now : Nat, ∀ img : String, ∀ r : SnapshotResponse,
       s.isTakingSnapshot = false → s.cameraReady = true → s.hasPermission = true →
       ((takeAndUploadSnapshot s now (some img) (Except.ok r)).1).violationCount
         = r.violation_count) ∧
    (∀ s : ProctoringState, ∀ now : Nat, ∀ cap : Option String,
       ∀ up : Except Unit SnapshotResponse,
       cap = none ∨ up = Except.error () →
       ((takeAndUploadSnapshot s now cap up).1).violationCount = s.violationCount) ∧
    (∀ s : ProctoringState, ∀ now : Nat, ∀ cap : Option String,
       ∀ up : Except Unit SnapshotResponse,
       ((takeAndUploadSnapshot s now cap up).1).violationCount = s.violationCount ∨
       ∃ r : SnapshotResponse, up = Except.ok r ∧
         ((takeAndUploadSnapshot s now cap up).1).violationCount = r.violation_count) := by
  have hok : ∀ s : ProctoringState, ∀ now : Nat, ∀ img : String,
      ∀ r : SnapshotResponse,
      s.isTakingSnapshot = false → s.cameraReady = true → s.hasPermission = true →
      ((takeAndUploadSnapshot s now (some img) (Except.ok r)).1).violationCount
        = r.violation_count := by
    intro s now img r hb hc hp
    rw [takeAndUploadSnapshot_ok_eq s now img (Except.ok r) hb hc hp,
        cycleComplete_ok_eq]
    cases hv : r.analysis.violations with
    | nil => simp [hv]
    | cons v rest =>
        cases hm : showViolationModal v.type r.violation_count false with
        | error e => simp [hv, hm]
        | ok m => simp [hv, hm]
  refine ⟨hok, ?_, ?_⟩
  · intro s now cap up hfail
    unfold takeAndUploadSnapshot
    by_cases hb : s.isTakingSnapshot
    · simp [hb]
    · by_cases hr : s.cameraReady && s.hasPermission
      · rcases hfail with hcap | hup
        · subst hcap; simp [hb, hr]
        · subst hup
          cases cap with
          | none => simp [hb, hr]
          | some img => simp [hb, hr, cycleComplete]
      · simp [hb, hr]
  · intro s now cap up
    by_cases hb : s.isTakingSnapshot
    · left; unfold takeAndUploadSnapshot; simp [hb]
    · by_cases hr : s.cameraReady && s.hasPermission
      · cases cap with
        | none => left; unfold takeAndUploadSnapshot; simp [hb, hr]
        | some img =>
            cases up with
            | error e => left; unfold takeAndUploadSnapshot; simp [hb, hr, cycleComplete]
            | ok r =>
                right
                refine ⟨r, rfl, ?_⟩
                have hr2 : s.cameraReady = true ∧ s.hasPermission = true := by
                  simpa using hr
                exact hok s now img r (by simpa using hb) hr2.1 hr2.2
      · left; unfold takeAndUploadSnapshot; simp [hb, hr]

/-- Witness for C2: a completed cycle at the armed state adopts the
server's cumulative count, and a failed upload leaves it unchanged. -/
theorem claim2_violation_count_from_server_witness :
    ((takeAndUploadSnapshot readyState 7 (some "img") (Except.ok cleanResponse)).1).violationCount
      = cleanResponse.violation_count ∧
    ((takeAndUploadSnapshot readyState 7 (some "img") (Except.error ())).1).violationCount
      = readyState.violationCount := by
  constructor
  · exact claim2_violation_count_from_server.1 readyState 7 "img" cleanResponse
      rfl rfl rfl
  · exact claim2_violation_count_from_server.2.1 readyState 7 (some "img")
      (Except.error ()) (Or.inr rfl)

/-- Updating the busy flag to the value it already has is the identity. -/
lemma clearBusy_eq_self (s : ProctoringState) (hb : s.isTakingSnapshot = false) :
    ({ s with isTakingSnapshot := false } : ProctoringState) = s := by
  cases s
  simp_all

/-- Claim C3 counterexample: a cycle whose verdict has a non-empty
violations list whose first entry carries an unhandled type.  The claim
says the gate is shown exactly once for such a cycle; in the code the
`details.title` access inside `showViolationModal` throws, the exception
is swallowed, and the gate is shown zero times — the modal state is
never written. -/
theorem claim3_counterexample :
    unhandledResponse.analysis.violations ≠ [] ∧
    modalSets (takeAndUploadSnapshot readyState 1 (some "img")
      (Except.ok unhandledResponse)).2 = [] ∧
    (takeAndUploadSnapshot readyState 1 (some "img")
      (Except.ok unhandledResponse)).1.violationModal = readyState.violationModal := by
  refine ⟨by decide, ?_, ?_⟩ <;> rfl

/-- Claim C3 (amended): for every snapshot cycle whose server verdict has
a non-empty violations list whose first entry carries one of the five
handled types, the Violation Presentation Gate is shown exactly once for
that cycle, and the state it is shown with carries that first
violation's type and the server's cumulative count from the same
response (with `isDisqualified` false); the modal state after the cycle
is that shown state. -/
theorem claim3_modal_once_with_first_violation
    (s : ProctoringState) (now : Nat) (img : String) (r : SnapshotResponse)
    (v : Violation) (rest : List Violation) (d : ViolationDetails)
    (hb : s.isTakingSnapshot = false) (hc : s.cameraReady = true)
    (hp : s.hasPermission = true)
    (hv : r.analysis.violations = v :: rest)
    (hd : getViolationDetails v.type = some d) :
    modalSets (takeAndUploadSnapshot s now (some img) (Except.ok r)).2 =
      [{ visible := true, violationType := v.type, violationTitle := d.title
         violationMessage := d.message, totalViolations := r.violation_count
         isDisqualified := false }] ∧
    (takeAndUploadSnapshot s now (some img) (Except.ok r)).1.violationModal =
      { visible := true, violationType := v.type, violationTitle := d.title
        violationMessage := d.message, totalViolations := r.violation_count
        isDisqualified := false } := by
  have hm : showViolationModal v.type r.violation_count false =
      Except.ok { visible := true, violationType := v.type
                  violationTitle := d.title, violationMessage := d.message
                  totalViolations := r.violation_count, isDisqualified := false } := by
    unfold showViolationModal
    rw [hd]
  rw [takeAndUploadSnapshot_ok_eq s now img (Except.ok r) hb hc hp,
      cycleComplete_ok_eq]
  simp [hv, hm, modalSets]

/-- Witness for the amended C3 at the armed state and a `no_face` cycle. -/
theorem claim3_modal_once_with_first_violation_witness :
    modalSets (takeAndUploadSnapshot readyState 2 (some "img")
      (Except.ok noFaceResponse)).2 =
      [{ visible := true, violationType := "no_face"
         violationTitle := "Face Not Detected"
         violationMessage := "Your face is not visible in the camera.\n\n📌 Action Required:\n• Position yourself so your face is clearly visible\n• Ensure proper lighting\n• Look at the screen"
         totalViolations := 4, isDisqualified := false }] := by
  exact (claim3_modal_once_with_first_violation readyState 2 "img" noFaceResponse
    { type := "no_face" } [] _ rfl rfl rfl rfl rfl).1

/-- Claim C4 (code bug): a cycle whose response has
`auto_disqualified = true` should trigger a modal state with
`isDisqualified = true`, and the code comments say it shows one, but
`showViolationModal('disqualified', ...)` dereferences the `undefined`
returned by `getViolationDetails` — whose switch has no `'disqualified'`
case — so the call throws, the `catch` swallows it, and no modal state
is ever written; evaluated here at the failing input. -/
theorem claim4_disqualified_modal_never_shown :
    disqResponse.auto_disqualified = true ∧
    showViolationModal "disqualified" disqResponse.violation_count true
      = Except.error () ∧
    modalSets (takeAndUploadSnapshot readyState 1 (some "img")
      (Except.ok disqResponse)).2 = [] ∧
    (takeAndUploadSnapshot readyState 1 (some "img")
      (Except.ok disqResponse)).1.violationModal.isDisqualified = false := by
  exact ⟨rfl, rfl, rfl, rfl⟩

/-- Claim C5: a cycle in which the capture fails (null image) or the
upload throws performs none of the completed-cycle state updates —
`snapshotCount`, `lastSnapshotTime`, `violationCount` and the modal are
exactly as before — the busy flag ends released, the interval flag is
untouched, and no modal is shown; the error is swallowed (the embedded
function is total, mirroring the `catch` that never rethrows). -/
theorem claim5_failed_cycle_swallowed
    (s : ProctoringState) (now : Nat) (cap : Option String)
    (up : Except Unit SnapshotResponse)
    (hb : s.isTakingSnapshot = false) (hc : s.cameraReady = true)
    (hp : s.hasPermission = true)
    (hfail : cap = none ∨ up = Except.error ()) :
    (takeAndUploadSnapshot s now cap up).1 = s ∧
    (takeAndUploadSnapshot s now cap up).1.isTakingSnapshot = false ∧
    (takeAndUploadSnapshot s now cap up).1.intervalActive = s.intervalActive ∧
    modalSets (takeAndUploadSnapshot s now cap up).2 = [] := by
  have hmain : (takeAndUploadSnapshot s now cap up).1 = s ∧
      modalSets (takeAndUploadSnapshot s now cap up).2 = [] := by
    have hg : (!(s.cameraReady && s.hasPermission)) = false := by
      simp [hc, hp]
    rcases hfail with hcap | hup
    · subst hcap
      unfold takeAndUploadSnapshot
      simp [hb, hg, clearBusy_eq_self s hb, modalSets]
    · subst hup
      cases cap with
      | none =>
          unfold takeAndUploadSnapshot
          simp [hb, hg, clearBusy_eq_self s hb, modalSets]
      | some img =>
          rw [takeAndUploadSnapshot_ok_eq s now img (Except.error ()) hb hc hp]
          unfold cycleComplete
          simp [clearBusy_eq_self s hb, modalSets]
  refine ⟨hmain.1, ?_, ?_, hmain.2⟩
  · rw [hmain.1]; exact hb
  · rw [hmain.1]

/-- Witness for C5: a failed upload at the armed state leaves the hook
state untouched. -/
theorem claim5_failed_cycle_swallowed_witness :
    (takeAndUploadSnapshot readyState 9 (some "img") (Except.error ())).1
      = readyState := by
  exact (claim5_failed_cycle_swallowed readyState 9 (some "img")
    (Except.error ()) rfl rfl rfl (Or.inr rfl)).1

/-- Claim C10: the violation-display path is total exactly for the five
handled types: `getViolationDetails` yields details iff the type is one
of them, `showViolationModal` produces a well-formed modal state iff the
details exist, and for the `'disqualified'` type passed by the
auto-disqualification branch it always fails on the undefined details. -/
theorem claim10_violation_details_handled_only :
    (∀ t : String, (getViolationDetails t).isSome = true ↔
       t ∈ handledViolationTypes) ∧
    (∀ t : String, ∀ n : Nat, ∀ b : Bool,
       (∃ m, showViolationModal t n b = Except.ok m) ↔
         (getViolationDetails t).isSome = true) ∧
    (∀ n : Nat, ∀ b : Bool,
       showViolationModal "disqualified" n b = Except.error ()) := by
  refine ⟨?_, ?_, showViolationModal_disqualified⟩
  · intro t
    unfold handledViolationTypes
    constructor
    · intro hs
      by_contra hmem
      simp only [List.mem_cons, List.not_mem_nil, or_false] at hmem
      push_neg at hmem
      obtain ⟨n1, n2, n3, n4, n5⟩ := hmem
      unfold getViolationDetails at hs
      simp [n1, n2, n3, n4, n5] at hs
    · intro hmem
      simp only [List.mem_cons, List.not_mem_nil, or_false] at hmem
      rcases hmem with h | h | h | h | h <;> subst h <;> decide
  · intro t n b
    unfold showViolationModal
    cases h : getViolationDetails t <;> simp [h]

/-- Witness for C10 at the handled type `no_face` and the unhandled type
`disqualified`. -/
theorem claim10_violation_details_handled_only_witness :
    (getViolationDetails "no_face").isSome = true ∧
    showViolationModal "disqualified" 10 true = Except.error () := by
  exact ⟨(claim10_violation_details_handled_only.1 "no_face").mpr (by decide),
         claim10_violation_details_handled_only.2.2 10 true⟩

/-! ## Shared lemmas about the exam session -/

/-- `recordedTimeSpent` as an `Option` fold, convenient for rewriting. -/
lemma recordedTimeSpent_eq (ua : List UserAnswer) (q : Nat) :
    recordedTimeSpent ua q =
      ((lookupAnswer ua q).map UserAnswer.timeSpent).getD 0 := by
  unfold recordedTimeSpent
  cases lookupAnswer ua q <;> rfl

/-- `updateQuestionTime` rewrites lookups pointwise. -/
lemma lookup_updateQuestionTime (ua : List UserAnswer) (qid t q : Nat) :
    lookupAnswer (updateQuestionTime ua qid t) q =
      (lookupAnswer ua q).map (fun a =>
        if a.questionId = qid then { a with timeSpent := a.timeSpent + t } else a) := by
  induction ua with
  | nil => rfl
  | cons a rest ih =>
      have hfid : ((if a.questionId = qid then
          ({ a with timeSpent := a.timeSpent + t } : UserAnswer) else a)).questionId
          = a.questionId := by
        split <;> rfl
      simp only [updateQuestionTime, List.map_cons, lookupAnswer, List.find?_cons]
      rw [hfid]
      by_cases hq : a.questionId = q
      · simp [hq]
      · have hd : decide (a.questionId = q) = false := by simp [hq]
        rw [hd]
        simpa only [updateQuestionTime, lookupAnswer] using ih

/-- When a question has no answer record, `updateQuestionTime` drops the
time on the floor: the map is returned unchanged. -/
lemma updateQuestionTime_absent (ua : List UserAnswer) (qid t : Nat)
    (h : lookupAnswer ua qid = none) :
    updateQuestionTime ua qid t = ua := by
  induction ua with
  | nil => rfl
  | cons a rest ih =>
      have ha : ¬(a.questionId = qid) := by
        intro hh
        simp [lookupAnswer, List.find?_cons, hh] at h
      have hrest : lookupAnswer rest qid = none := by
        simpa [lookupAnswer, List.find?_cons, ha] using h
      simp [updateQuestionTime, ha]
      simpa [updateQuestionTime] using ih hrest

/-- `updateQuestionTime` never decreases any recorded time. -/
lemma recordedTimeSpent_update_mono (ua : List UserAnswer) (qid t q : Nat) :
    recordedTimeSpent ua q ≤ recordedTimeSpent (updateQuestionTime ua qid t) q := by
  rw [recordedTimeSpent_eq, recordedTimeSpent_eq, lookup_updateQuestionTime]
  cases h : lookupAnswer ua q with
  | none => simp
  | some a =>
      simp only [Option.map_some', Option.getD_some]
      split <;> simp

/-- Closing out the current question never decreases any recorded time. -/
lemma recordedTimeSpent_closeOut_mono (s : ExamState) (now q : Nat) :
    recordedTimeSpent s.userAnswers q ≤
      recordedTimeSpent (closeOutCurrent s now) q := by
  unfold closeOutCurrent
  cases hq : s.questions.get? s.currentQuestionIndex with
  | none => simp
  | some cq => exact recordedTimeSpent_update_mono s.userAnswers cq.id _ q

/-- Navigation rewrites the answer map exactly by the close-out step. -/
lemma navigate_userAnswers (s : ExamState) (index now : Nat) :
    (navigateToQuestion s index now).userAnswers = closeOutCurrent s now := rfl

/-- Recorded times never decrease along any navigation sequence. -/
lemma runNavs_mono (navs : List (Nat × Nat)) :
    ∀ s : ExamState, ∀ q : Nat,
      recordedTimeSpent s.userAnswers q ≤
        recordedTimeSpent (runNavs s navs).userAnswers q := by
  induction navs with
  | nil => intro s q; simp [runNavs]
  | cons nav rest ih =>
      intro s q
      have h1 := recordedTimeSpent_closeOut_mono s nav.2 q
      have h2 := ih (navigateToQuestion s nav.1 nav.2) q
      rw [navigate_userAnswers] at h2
      calc recordedTimeSpent s.userAnswers q
          ≤ recordedTimeSpent (closeOutCurrent s nav.2) q := h1
        _ ≤ recordedTimeSpent (runNavs (navigateToQuestion s nav.1 nav.2) rest).userAnswers q := by
            simpa [navigate_userAnswers] using h2
        _ = recordedTimeSpent (runNavs s (nav :: rest)).userAnswers q := by
            simp [runNavs]

/-- A burst of edits is a left fold; appending a final edit applies it
last. -/
lemma runEdits_append (s : ExamState) (qid : Nat)
    (xs : List (Nat × String × Bool)) (e : Nat × String × Bool) :
    runEdits s qid (xs ++ [e]) =
      autoSaveAnswer (runEdits s qid xs) e.1 qid e.2.1 e.2.2 := by
  induction xs generalizing s with
  | nil => rfl
  | cons x rest ih => simp [runEdits, ih]

/-- Edits never change the attempt id. -/
lemma runEdits_attemptId (qid : Nat) (xs : List (Nat × String × Bool)) :
    ∀ s : ExamState, (runEdits s qid xs).attemptId = s.attemptId := by
  induction xs with
  | nil => intro s; rfl
  | cons x rest ih => intro s; simpa [runEdits] using ih (autoSaveAnswer s x.1 qid x.2.1 x.2.2)

/-- A cleared countdown interval never ticks again. -/
lemma countdownRun_inactive (k : Nat) :
    ∀ s : ExamState, ∀ now : Nat, s.timerActive = false →
      countdownRun s now k = (s, []) := by
  induction k with
  | zero => intro s now h; rfl
  | succ k ih =>
      intro s now h
      simp [countdownRun, countdownTick, h, ih s (now + 1000) h]

/-- Reaching zero fires the auto-submit exactly once, with the payload
built from the answers after the final close-out. -/
lemma countdown_fire (t : Nat) :
    ∀ s : ExamState, ∀ now k : Nat,
      s.timeRemaining = t → s.timerActive = true → t + 1 ≤ k →
      submitCalls (countdownRun s now k).2 =
        [{ attempt_id := s.attemptId
           answers := answersForSubmit (closeOutCurrent s (now + 1000 * t)) }] := by
  induction t with
  | zero =>
      intro s now k ht ha hk
      obtain ⟨k2, rfl⟩ : ∃ k2, k = k2 + 1 := ⟨k - 1, by omega⟩
      simp [countdownRun, countdownTick, ha, ht, submitExam, submitCalls]
      refine ⟨rfl, ?_⟩
      rw [countdownRun_inactive k2 _ (now + 1000) rfl]
      rfl
  | succ t ih =>
      intro s now k ht ha hk
      obtain ⟨k2, rfl⟩ : ∃ k2, k = k2 + 1 := ⟨k - 1, by omega⟩
      have hstep := ih { s with timeRemaining := t } (now + 1000) k2 rfl ha (by omega)
      have harith : now + 1000 + 1000 * t = now + 1000 * (t + 1) := by ring
      rw [harith] at hstep
      simpa [countdownRun, countdownTick, ha, ht] using hstep

/-! ## Remaining claims -/

/-- Claim C6: N rapid edits to the same question within the debounce
window make no network call during the burst (the model's edit step
performs none, mirroring `clearTimeout` replacing the pending timer
before it can fire) and leave exactly one pending debounced save, which
carries the last edit's value; when the burst quiets and the timer
fires, exactly one `submitAnswer` call is made and it carries the Nth
(latest) answer value and flag. -/
theorem claim6_debounce_last_edit_once (s0 : ExamState) (questionId : Nat)
    (xs : List (Nat × String × Bool)) (now : Nat) (ans : String) (flag : Bool) :
    (runEdits s0 questionId (xs ++ [(now, ans, flag)])).pendingAutoSave
      = some (questionId, ans, flag) ∧
    (autoSaveFire (runEdits s0 questionId (xs ++ [(now, ans, flag)]))).2
      = [NetCall.autosave s0.attemptId questionId ans flag] ∧
    (autoSaveFire (runEdits s0 questionId (xs ++ [(now, ans, flag)]))).1.pendingAutoSave
      = none := by
  rw [runEdits_append]
  refine ⟨rfl, ?_, rfl⟩
  simp [autoSaveAnswer, autoSaveFire, runEdits_attemptId]

/-- Claim C7 counterexample: a first visit to question 1 with no answer
record.  The student dwells 5 seconds and navigates away; the claim says
the question's accumulated `timeSpent` equals that dwell, but
`updateQuestionTime` only updates existing entries, so the 5 seconds are
dropped and nothing is recorded. -/
theorem claim7_counterexample :
    lookupAnswer examBase.userAnswers 1 = none ∧
    (5000 - examBase.questionStartTime) / 1000 = 5 ∧
    recordedTimeSpent (navigateToQuestion examBase 1 5000).userAnswers 1 = 0 := by
  decide

/-- Claim C7 (amended): dwell intervals are accumulated into `timeSpent`
only for questions that already hold a `UserAnswer` record when the
student navigates away: for such a question one navigation adds exactly
the dwell `(now - questionStartTime) / 1000`; across every navigation
sequence each recorded `timeSpent` is monotonically non-decreasing; and
a dwell on a question with no record is dropped — the answer map is
returned unchanged. -/
theorem claim7_time_accumulation :
    (∀ s : ExamState, ∀ index now : Nat, ∀ q : Question, ∀ a : UserAnswer,
       s.questions.get? s.currentQuestionIndex = some q →
       lookupAnswer s.userAnswers q.id = some a →
       recordedTimeSpent (navigateToQuestion s index now).userAnswers q.id
         = a.timeSpent + (now - s.questionStartTime) / 1000) ∧
    (∀ s : ExamState, ∀ navs : List (Nat × Nat), ∀ q : Nat,
       recordedTimeSpent s.userAnswers q ≤
         recordedTimeSpent (runNavs s navs).userAnswers q) ∧
    (∀ s : ExamState, ∀ index now : Nat, ∀ q : Question,
       s.questions.get? s.currentQuestionIndex = some q →
       lookupAnswer s.userAnswers q.id = none →
       (navigateToQuestion s index now).userAnswers = s.userAnswers) := by
  refine ⟨?_, fun s navs q => runNavs_mono navs s q, ?_⟩
  · intro s index now q a hq ha
    have hpq : a.questionId = q.id := by
      unfold lookupAnswer at ha
      have := List.find?_some ha
      simpa using this
    rw [navigate_userAnswers]
    unfold closeOutCurrent
    rw [hq]
    unfold recordedTimeSpent
    rw [lookup_updateQuestionTime, ha]
    simp [hpq]
  · intro s index now q hq hnone
    rw [navigate_userAnswers]
    unfold closeOutCurrent
    rw [hq]
    exact updateQuestionTime_absent s.userAnswers q.id _ hnone

/-- Witness for the amended C7: with a record of 3 seconds on question 1,
leaving it after a 5-second dwell records 8 seconds; without a record
the map is unchanged. -/
theorem claim7_time_accumulation_witness :
    recordedTimeSpent (navigateToQuestion examWithAnswer 1 5000).userAnswers 1 = 3 + 5 ∧
    (navigateToQuestion examBase 1 5000).userAnswers = examBase.userAnswers := by
  constructor
  · exact claim7_time_accumulation.1 examWithAnswer 1 5000
      { id := 1, subject := "General" }
      { questionId := 1, answer := "A", isFlagged := false, timeSpent := 3, startTime := 0 }
      rfl rfl
  · exact claim7_time_accumulation.2.2 examBase 1 5000
      { id := 1, subject := "General" } rfl rfl

/-- Claim C8 counterexample: the `submitting` flag does not guard
re-entrancy.  `submitExam` never consults it: invoked while a submission
is already in flight (`submitting = true`), it still issues a second
`submit` network call, so the claimed guard does not exist. -/
theorem claim8_counterexample :
    submittingState.submitting = true ∧
    submitCalls (submitExam submittingState 1000).2 ≠ [] := by
  decide

/-- Claim C8 (amended): when the countdown reaches zero, exactly one
final submit call is made without user action — uniqueness comes from
the interval being cleared before the auto-submit, not from the
`submitting` flag, which is set during submission but never consulted as
a guard.  The call's payload keys every in-memory `UserAnswer` by its
question id with its answer, flag and time spent (after the final
close-out of the current question). -/
theorem claim8_auto_submit_once (s0 : ExamState) (now k : Nat)
    (ha : s0.timerActive = true) (hk : s0.timeRemaining + 1 ≤ k) :
    submitCalls (countdownRun s0 now k).2 =
      [{ attempt_id := s0.attemptId
         answers := answersForSubmit
           (closeOutCurrent s0 (now + 1000 * s0.timeRemaining)) }] ∧
    ∀ a ∈ closeOutCurrent s0 (now + 1000 * s0.timeRemaining),
      (a.questionId,
       ({ question_id := a.questionId, answer := a.answer
          is_flagged := a.isFlagged, time_spent := a.timeSpent } : AnswerWithTime)) ∈
        answersForSubmit (closeOutCurrent s0 (now + 1000 * s0.timeRemaining)) := by
  refine ⟨countdown_fire s0.timeRemaining s0 now k rfl ha hk, ?_⟩
  intro a ha2
  unfold answersForSubmit
  exact List.mem_map_of_mem _ ha2

/-- Witness for the amended C8 at a one-tick countdown. -/
theorem claim8_auto_submit_once_witness :
    submitCalls (countdownRun submittingState 0 1).2 =
      [{ attempt_id := submittingState.attemptId
         answers := answersForSubmit
           (closeOutCurrent submittingState (0 + 1000 * submittingState.timeRemaining)) }] := by
  exact (claim8_auto_submit_once submittingState 0 1 rfl (by decide)).1

/-- Claim C9 counterexample: a visible disqualification notice.  The
claim says `close()` is a no-op while `isDisqualified` holds; in the
code `closeViolationModal` unconditionally sets `visible` to `false`,
so the notice is dismissed. -/
theorem claim9_counterexample :
    disqModal.isDisqualified = true ∧
    (closeViolationModal disqModal).visible = false ∧
    closeViolationModal disqModal ≠ disqModal := by
  decide

/-- Claim C9 (amended): `close()` always hides the modal — it sets
`visible := false` and leaves every other field, including
`isDisqualified`, unchanged, even for a disqualification notice; only
the hardware-back `onRequestClose` handler is withheld while
`isDisqualified` is set, while the on-screen button invokes the same
unconditional close. -/
theorem claim9_close_always_hides (m : ViolationModalState) :
    closeViolationModal m = { m with visible := false } ∧
    modalOnRequestClose true = none ∧
    modalOnRequestClose false = some closeViolationModal :=
  ⟨rfl, rfl, rfl⟩

end ExamApp
